import Mathlib

/-!
# Verification of the baldr-rtc-python control core

Shallow embedding of the `baldr_rtc` package (command dispatch, command
queue, control-loop state machine, controllers, configuration loading)
and proofs about its behaviour.

Numeric values are modelled with `ℚ` (the source computes with numpy
float64; the properties below are algebraic and are stated over exact
arithmetic).  Vectors are `List ℚ`, element-wise operations are
`List.zipWith`, matching numpy's element-wise semantics on equally-sized
1-D arrays.  Fallible Python code is modelled with `Except PyErr`.
-/

/-- Python exception values raised by the embedded code.  Only the
constructor identity matters for the theorems; `CPython` adds quote
characters around names in the rendered message, which we omit. -/
inductive PyErr where
  /-- Source: `FileNotFoundError(f"Config file not found: {p}")` from `_load_toml`. -/
  | fileNotFound (path : String)
  /-- Source: `IsADirectoryError` raised by `Path.read_text` on a directory. -/
  | isADirectory (path : String)
  /-- Source: `AttributeError` from reading an attribute absent on a dataclass. -/
  | attributeError (obj attr : String)
  /-- Source: `ValueError(msg)`. -/
  | valueError (msg : String)
  /-- Source: `KeyError(key)` from `d[key]` on a dict without the key. -/
  | keyError (key : String)
  /-- Source: `RuntimeError(msg)` from the legacy config reader. -/
  | runtimeError (msg : String)
  /-- Source: `raise UserWarning(...)` from `build_controller`; carries the
  offending `controller_type` string. -/
  | userWarning (controllerType : String)
  /-- Source: `TypeError` (e.g. `len()` or `int()` of an unsuitable value). -/
  | typeError (msg : String)
  deriving Repr, DecidableEq

/-- Returns `true` exactly for the `FileNotFoundError` variant. -/
def PyErr.isFnf : PyErr → Bool
  | .fileNotFound _ => true
  | _ => false

/-- Rendered message (`str(e)`), without CPython's quote characters. -/
def PyErr.msg : PyErr → String
  | .fileNotFound p => "Config file not found: " ++ p
  | .isADirectory p => "Errno 21 Is a directory: " ++ p
  | .attributeError o a => o ++ " object has no attribute " ++ a
  | .valueError m => m
  | .keyError k => k
  | .runtimeError m => m
  | .userWarning t => "controller_type " ++ t ++ " not implemented"
  | .typeError m => m

/-- JSON-like values exchanged by the commander layer
(`baldr_rtc/commander/module.py`, type alias `Json`). -/
inductive Json where
  | jNull
  | jBool (b : Bool)
  | jNum (q : ℚ)
  | jStr (s : String)
  | jArr (l : List Json)
  | jObj (l : List (String × Json))
  deriving Repr

/-- The `{"error": str(e)}` object produced by `Module.execute` when a
handler raises. -/
def errObj (e : PyErr) : Json := .jObj [("error", .jStr e.msg)]

/-- Parsed TOML data (`tomllib.loads` output): the `Dict[str, Any]`
universe that `_load_toml` returns.  TOML text parsing itself is an
external library and is not modelled; files carry pre-parsed values. -/
inductive TomlVal where
  | dict (kvs : List (String × TomlVal))
  | arr (l : List TomlVal)
  | str (s : String)
  | int (i : Int)
  | float (q : ℚ)
  | bool (b : Bool)
  deriving Repr

/-- Filesystem node, as seen by `pathlib` in `_load_toml`. -/
inductive FSNode where
  | missing
  | directory
  | file (data : TomlVal)

/-- The filesystem: maps (normalised) path strings to nodes. -/
abbrev FS := String → FSNode

/-- Source: `Path(s).expanduser()` for the paths the claims exercise: the empty
string normalises to `"."` (in `pathlib`, `Path("") == Path(".")`);
other paths are used verbatim. -/
def pathNorm (s : String) : String := if s = "" then "." else s

-- ----------------------------------------------------------------
-- Enums (`baldr_rtc/core/state.py`)
-- ----------------------------------------------------------------

/-- Source: `class ServoState(IntEnum): SERVO_OPEN = 0; SERVO_CLOSE = 1`. -/
inductive ServoState where
  | SERVO_OPEN
  | SERVO_CLOSE
  deriving Repr, DecidableEq

/-- Source: `int(s)` for a `ServoState`. -/
def ServoState.toInt : ServoState → Int
  | .SERVO_OPEN => 0
  | .SERVO_CLOSE => 1

/-- Source: `ServoState(i)`: enum construction from an int, `ValueError` when
`i` is not a member value. -/
def servoStateOfInt (i : Int) : Except PyErr ServoState :=
  if i = 0 then .ok .SERVO_OPEN
  else if i = 1 then .ok .SERVO_CLOSE
  else .error (.valueError ((toString i) ++ " is not a valid ServoState"))

/-- Source: `class MainState(IntEnum): SERVO_RUN = 0; SERVO_STOP = 2`. -/
inductive MainState where
  | SERVO_RUN
  | SERVO_STOP
  deriving Repr, DecidableEq

/-- Source: `int(m)` for a `MainState`. -/
def MainState.toInt : MainState → Int
  | .SERVO_RUN => 0
  | .SERVO_STOP => 2

-- ----------------------------------------------------------------
-- Config sub-structures (`baldr_rtc/core/state.py`)
-- ----------------------------------------------------------------

/-- Source: `@dataclass class Limits`. -/
structure Limits where
  open_on_flux_limit : ℚ := 0
  close_on_strehl_limit : ℚ := 0
  open_on_strehl_limit : ℚ := 0
  open_on_dm_limit : ℚ := 0
  LO_offload_limit : ℚ := 0
  deriving Repr

/-- Source: `@dataclass class InjSignal`. -/
structure InjSignal where
  enabled : Bool := false
  deriving Repr

/-- Source: `@dataclass class StateConfig`. -/
structure StateConfig where
  DM_flat : String := ""
  signal_space : String := ""
  LO : Int := 0
  controller_type : String := "unknown"
  inverse_method_LO : String := ""
  inverse_method_HO : String := ""
  phasemask : String := "H1"
  auto_close : Int := 0
  auto_open : Int := 1
  auto_tune : Int := 0
  take_telemetry : Bool := false
  auto_close_python : Bool := false
  simulation_mode : Int := 0
  deriving Repr

/-- Source: `@dataclass class Matrices` — the matrix fields are `Any` in the
source (nested lists straight from TOML), so they are `TomlVal` here,
defaulting to the empty list. -/
structure Matrices where
  I2A : TomlVal := .arr []
  I2M : TomlVal := .arr []
  I2M_LO : TomlVal := .arr []
  I2M_HO : TomlVal := .arr []
  M2C : TomlVal := .arr []
  M2C_LO : TomlVal := .arr []
  M2C_HO : TomlVal := .arr []
  I2rms_sec : TomlVal := .arr []
  I2rms_ext : TomlVal := .arr []
  szm : Int := 0
  sza : Int := 0
  szp : Int := 0
  deriving Repr

/-- Source: `@dataclass class ReferencePupils` (fields are `Any`). -/
structure ReferencePupils where
  I0 : TomlVal := .arr []
  N0 : TomlVal := .arr []
  norm_pupil : TomlVal := .arr []
  norm_pupil_dm : TomlVal := .arr []
  I0_dm : TomlVal := .arr []
  intrn_flx_I0 : ℚ := 1
  deriving Repr

/-- Source: `@dataclass class Pixels` (fields are `Any`). -/
structure Pixels where
  crop_pixels : TomlVal := .arr []
  bad_pixels : TomlVal := .arr []
  pupil_pixels : TomlVal := .arr []
  interior_pixels : TomlVal := .arr []
  secondary_pixels : TomlVal := .arr []
  exterior_pixels : TomlVal := .arr []
  deriving Repr

/-- Source: `@dataclass class Filters` (fields are `Any`). -/
structure Filters where
  bad_pixel_mask : TomlVal := .arr []
  pupil : TomlVal := .arr []
  secondary : TomlVal := .arr []
  exterior : TomlVal := .arr []
  inner_pupil_filt : TomlVal := .arr []
  bad_pixel_mask_dm : TomlVal := .arr []
  pupil_dm : TomlVal := .arr []
  secondary_dm : TomlVal := .arr []
  exterior_dm : TomlVal := .arr []
  inner_pupil_filt_dm : TomlVal := .arr []
  deriving Repr

/-- Source: `@dataclass class CamConfig` (all string fields). -/
structure CamConfig where
  fps : String := ""
  gain : String := ""
  testpattern : String := ""
  bias : String := ""
  flat : String := ""
  imagetags : String := ""
  led : String := ""
  events : String := ""
  extsynchro : String := ""
  rawimages : String := ""
  cooling : String := ""
  mode : String := ""
  resetwidth : String := ""
  nbreadworeset : String := ""
  cropping : String := ""
  cropping_columns : String := ""
  cropping_rows : String := ""
  aduoffset : String := ""
  deriving Repr

/-- Source: `@dataclass class BDRConfig` — the master configuration object. -/
structure BDRConfig where
  fps : ℚ := 0
  matrices : Matrices := {}
  reference_pupils : ReferencePupils := {}
  pixels : Pixels := {}
  filters : Filters := {}
  cam : CamConfig := {}
  limits : Limits := {}
  inj_signal : InjSignal := {}
  state : StateConfig := {}
  io_mode : String := "null"
  io_beam : Int := 1
  io_cam_path : String := "/dev/shm/baldr{beam}.im.shm"
  io_dm_path : String := "/dev/shm/dm{beam}.im.shm"
  io_shm_nosem : Bool := true
  io_shm_semid : Int := 0
  io_zmq_cam_addr : String := "tcp://127.0.0.1:5556"
  io_zmq_dm_addr : String := "tcp://127.0.0.1:5555"
  io_zmq_timeout_ms : Int := 200
  io_null_shape : Int × Int := (32, 32)
  deriving Repr

/-- The default-constructed `BDRConfig()`. -/
def defaultBDRConfig : BDRConfig := {}

/-- Source: `BDRConfig.validate`: the body is `print('not implemented')` with
every check commented out — it never raises. -/
def BDRConfig.validate (_ : BDRConfig) : Except PyErr Unit := .ok ()

-- ----------------------------------------------------------------
-- Controllers (`baldr_rtc/rtc/controllers.py`)
-- ----------------------------------------------------------------

/-- Python `str.isspace` characters relevant to `strip()` (ASCII). -/
def pyIsSpace (c : Char) : Bool :=
  c = ' ' ∨ c = '\t' ∨ c = '\n' ∨ c = '\r' ∨ c = '\x0b' ∨ c = '\x0c'

/-- ASCII case lowering of one character (`str.lower` restricted to the
ASCII identifiers this code compares against). -/
def pyLowerChar (c : Char) : Char :=
  if 'A' ≤ c ∧ c ≤ 'Z' then Char.ofNat (c.toNat + 32) else c

/-- Python `s.lower()`. -/
def pyLower (s : String) : String := ⟨s.data.map pyLowerChar⟩

/-- Python `s.strip()`: whitespace removed from both ends. -/
def pyStrip (s : String) : String :=
  ⟨((s.data.dropWhile pyIsSpace).reverse.dropWhile pyIsSpace).reverse⟩

/-- A gain/limit argument to `build_controller`: a Python scalar or a
sequence (what `np.asarray(x).reshape(-1)` accepts in `_as_vec`). -/
inductive VecArg where
  | scalar (q : ℚ)
  | vec (l : List ℚ)
  deriving Repr

/-- Source: `_as_vec(x, n, default)`: `None` gives `np.full(n, default)`; a
size-1 input is broadcast to `n`; size `n` is taken as-is; any other
size raises `ValueError(f"expected size {n}, got {a.size}")`. -/
def asVec (x : Option VecArg) (n : Nat) (default : ℚ) : Except PyErr (List ℚ) :=
  match x with
  | none => .ok (List.replicate n default)
  | some (.scalar q) => .ok (List.replicate n q)
  | some (.vec l) =>
    if l.length = 1 then .ok (List.replicate n (l.headD 0))
    else if l.length = n then .ok l
    else .error (.valueError ("expected size " ++ toString n ++ ", got " ++ toString l.length))

/-- Source: `np.clip` / `np.minimum` / `np.maximum` application at the end of
`process` (element-wise; `np.clip(u, lo, hi) = min(max(u, lo), hi)`). -/
def clipOpt (u : List ℚ) (uMin uMax : Option (List ℚ)) : List ℚ :=
  match uMin, uMax with
  | none, none => u
  | none, some hi => List.zipWith min u hi
  | some lo, none => List.zipWith max u lo
  | some lo, some hi => List.zipWith min (List.zipWith max u lo) hi

/-- Source: `@dataclass class PIDController` after `__post_init__`: gain vectors
all of the controller's dimensionality, `_i` / `_e_prev` the mutable
integral and previous-error state. -/
structure PIDController where
  kp : List ℚ
  ki : List ℚ
  kd : List ℚ
  dt : ℚ
  u_min : Option (List ℚ) := none
  u_max : Option (List ℚ) := none
  setpoint : Option (List ℚ) := none
  iState : List ℚ
  ePrev : List ℚ
  deriving Repr

/-- Source: `PIDController.__post_init__`: size checks on `kp/ki/kd`, `dt > 0`
check, broadcast/size checks on the optional vectors, zero-initialised
state.  The constructor-call sites in this file always pass `u_min` /
`u_max` / `setpoint` already sized `n` or `None` (they come through
`_as_vec`), so the broadcast branch reduces to the size check. -/
def mkPIDController (kp ki kd : List ℚ) (dt : ℚ)
    (uMin uMax setpoint : Option (List ℚ)) : Except PyErr PIDController :=
  let n := kp.length
  if ki.length ≠ n ∨ kd.length ≠ n then
    .error (.valueError "kp/ki/kd size mismatch")
  else if dt ≤ 0 then
    .error (.valueError "dt must be > 0")
  else if uMin.elim false (fun v => v.length ≠ n) then
    .error (.valueError "u_min size mismatch")
  else if uMax.elim false (fun v => v.length ≠ n) then
    .error (.valueError "u_max size mismatch")
  else if setpoint.elim false (fun v => v.length ≠ n) then
    .error (.valueError "setpoint size mismatch")
  else
    .ok { kp := kp, ki := ki, kd := kd, dt := dt,
          u_min := uMin, u_max := uMax, setpoint := setpoint,
          iState := List.replicate n 0, ePrev := List.replicate n 0 }

/-- Source: `PIDController.process(e)`: setpoint subtraction, `_i += e*dt`,
`d = (e - e_prev)/dt`, `_e_prev[:] = e`,
`u = kp*e + ki*_i + kd*d`, optional clipping.  Returns the output and
the updated controller. -/
def pidProcess (c : PIDController) (e0 : List ℚ) : List ℚ × PIDController :=
  let e := match c.setpoint with
    | some sp => List.zipWith (· - ·) e0 sp
    | none => e0
  let iNew := List.zipWith (· + ·) c.iState (e.map (· * c.dt))
  let d := (List.zipWith (· - ·) e c.ePrev).map (· * (1 / c.dt))
  let u0 := List.zipWith (· + ·)
      (List.zipWith (· + ·) (List.zipWith (· * ·) c.kp e)
        (List.zipWith (· * ·) c.ki iNew))
      (List.zipWith (· * ·) c.kd d)
  let u := clipOpt u0 c.u_min c.u_max
  (u, { c with iState := iNew, ePrev := e })

/-- Source: `@dataclass class LeakyIntegrator` after `__post_init__`. -/
structure LeakyIntegrator where
  rho : List ℚ
  ki : List ℚ
  kp : Option (List ℚ) := none
  u_min : Option (List ℚ) := none
  u_max : Option (List ℚ) := none
  setpoint : Option (List ℚ) := none
  state : List ℚ
  deriving Repr

/-- Source: `LeakyIntegrator.__post_init__` (same conventions as
`mkPIDController`; dimensionality is `rho.size`). -/
def mkLeakyIntegrator (rho ki : List ℚ) (kp uMin uMax setpoint : Option (List ℚ)) :
    Except PyErr LeakyIntegrator :=
  let n := rho.length
  if ki.length ≠ n then
    .error (.valueError "rho/ki size mismatch")
  else if kp.elim false (fun v => v.length ≠ n) then
    .error (.valueError "kp size mismatch")
  else if uMin.elim false (fun v => v.length ≠ n) then
    .error (.valueError "u_min size mismatch")
  else if uMax.elim false (fun v => v.length ≠ n) then
    .error (.valueError "u_max size mismatch")
  else if setpoint.elim false (fun v => v.length ≠ n) then
    .error (.valueError "setpoint size mismatch")
  else
    .ok { rho := rho, ki := ki, kp := kp,
          u_min := uMin, u_max := uMax, setpoint := setpoint,
          state := List.replicate n 0 }

/-- Source: `LeakyIntegrator.process(e)`: setpoint subtraction,
`state = rho*state + ki*e`, `u = state` (aliased!) or `state + kp*e`,
optional clipping.  When `kp is None` and clipping is configured, the
in-place `np.minimum/maximum/clip(..., out=u)` writes through the alias
into `_state`; the embedding reproduces that. -/
def leakyProcess (c : LeakyIntegrator) (e0 : List ℚ) : List ℚ × LeakyIntegrator :=
  let e := match c.setpoint with
    | some sp => List.zipWith (· - ·) e0 sp
    | none => e0
  let stNew := List.zipWith (· + ·)
      (List.zipWith (· * ·) c.rho c.state)
      (List.zipWith (· * ·) c.ki e)
  let u0 := match c.kp with
    | none => stNew
    | some kp => List.zipWith (· + ·) stNew (List.zipWith (· * ·) kp e)
  let u := clipOpt u0 c.u_min c.u_max
  let stKept :=
    if c.kp.isNone ∧ (c.u_min.isSome ∨ c.u_max.isSome) then u else stNew
  (u, { c with state := stKept })

/-- The two controller variants returned by `build_controller`. -/
inductive Ctrl where
  | pid (c : PIDController)
  | leaky (c : LeakyIntegrator)
  deriving Repr

/-- A controller's dimensionality (number of elements it processes). -/
def Ctrl.dim : Ctrl → Nat
  | .pid c => c.kp.length
  | .leaky c => c.rho.length

/-- Source: `build_controller(controller_type, n, *, dt, kp, ki, kd, rho, u_min,
u_max, setpoint)`.  The Python defaults are `dt=1.0` and `None` for all
vector arguments; callers of this definition pass them explicitly. -/
def buildController (controllerType : String) (n : Nat) (dt : ℚ)
    (kp ki kd rho uMin uMax setpoint : Option VecArg) : Except PyErr Ctrl :=
  let t := pyLower (pyStrip controllerType)
  if t = "pid" then do
    let kpV ← asVec kp n 0
    let kiV ← asVec ki n 0
    let kdV ← asVec kd n 0
    let uMinV ← match uMin with
      | none => pure none
      | some v => some <$> asVec (some v) n 0
    let uMaxV ← match uMax with
      | none => pure none
      | some v => some <$> asVec (some v) n 0
    let spV ← match setpoint with
      | none => pure none
      | some v => some <$> asVec (some v) n 0
    Ctrl.pid <$> mkPIDController kpV kiV kdV dt uMinV uMaxV spV
  else if t = "leaky" then do
    let rhoV ← asVec rho n 1
    let kiV ← asVec ki n 0
    let kpV ← match kp with
      | none => pure none
      | some v => some <$> asVec (some v) n 0
    let uMinV ← match uMin with
      | none => pure none
      | some v => some <$> asVec (some v) n 0
    let uMaxV ← match uMax with
      | none => pure none
      | some v => some <$> asVec (some v) n 0
    let spV ← match setpoint with
      | none => pure none
      | some v => some <$> asVec (some v) n 0
    Ctrl.leaky <$> mkLeakyIntegrator rhoV kiV kpV uMinV uMaxV spV
  else
    .error (.userWarning controllerType)

-- ----------------------------------------------------------------
-- Runtime globals (`baldr_rtc/core/state.py`)
-- ----------------------------------------------------------------

/-- A camera frame: the 2-D numeric array in `get_frame().data`. -/
abbrev Frame := List (List ℚ)

/-- External camera collaborator (`CameraIO`), abstracted as a pure
stream of frames indexed by the loop's frame counter. -/
abbrev CamIO := Nat → Frame

/-- External DM collaborator (`DMIO`); only its presence matters to the
loop (its `write` is an outward effect, recorded as an event). -/
abbrev DmIO := Unit

/-- Source: `@dataclass(slots=True) class RTCModel` — runtime matrices and
controllers.  Matrix fields are numpy arrays in the source, so they are
typed vectors/matrices here; the optional hooks are function values. -/
structure RTCModelRec where
  signal_space : String
  I2A : Option (List (List ℚ))
  I2M_LO : List (List ℚ)
  I2M_HO : List (List ℚ)
  M2C_LO : List (List ℚ)
  M2C_HO : List (List ℚ)
  N0_runtime : List ℚ
  i_setpoint_runtime : List ℚ
  ctrl_LO : Ctrl
  ctrl_HO : Ctrl
  process_frame : Option (List ℚ → List ℚ) := none
  perf_model : Option (List ℚ → List ℚ) := none
  perf_param : Option Unit := none

/-- Source: `@dataclass class RuntimeGlobals` — the process-wide run-state. -/
structure RuntimeGlobals where
  beam : Int := 0
  phasemask : String := "H1"
  active_config_filename : Option String := none
  mode : String := "unknown"
  servo_mode : MainState := .SERVO_RUN
  servo_mode_LO : ServoState := .SERVO_OPEN
  servo_mode_HO : ServoState := .SERVO_OPEN
  pause_rtc : Bool := false
  camera_io : Option CamIO := none
  dm_io : Option DmIO := none
  rtc_config : BDRConfig := {}
  model : Option RTCModelRec := none

/-- The default-constructed `RuntimeGlobals()`. -/
def defaultGlobals : RuntimeGlobals := {}

/-- A dynamically-read attribute value of `RuntimeGlobals`. -/
inductive PyValue where
  | pvInt (i : Int)
  | pvStr (s : String)
  | pvOptStr (o : Option String)
  | pvBool (b : Bool)
  | pvMain (m : MainState)
  | pvServo (s : ServoState)
  | pvCam (c : Option CamIO)
  | pvDm (d : Option DmIO)
  | pvCfg (c : BDRConfig)
  | pvModel (m : Option RTCModelRec)

/-- Python attribute lookup on a `RuntimeGlobals` instance.
`RuntimeGlobals` is a plain dataclass: a lookup of any name that is not
one of its declared fields raises `AttributeError` (nothing in the
package ever assigns extra attributes to the instance).  For declared
fields the lookup always succeeds and returns the field value, so the
embedding reads declared fields directly off the structure and uses
this function where the source reads a name that is not a field. -/
def RuntimeGlobals.dynAttr (g : RuntimeGlobals) (name : String) :
    Except PyErr PyValue :=
  if name = "beam" then .ok (.pvInt g.beam)
  else if name = "phasemask" then .ok (.pvStr g.phasemask)
  else if name = "active_config_filename" then .ok (.pvOptStr g.active_config_filename)
  else if name = "mode" then .ok (.pvStr g.mode)
  else if name = "servo_mode" then .ok (.pvMain g.servo_mode)
  else if name = "servo_mode_LO" then .ok (.pvServo g.servo_mode_LO)
  else if name = "servo_mode_HO" then .ok (.pvServo g.servo_mode_HO)
  else if name = "pause_rtc" then .ok (.pvBool g.pause_rtc)
  else if name = "camera_io" then .ok (.pvCam g.camera_io)
  else if name = "dm_io" then .ok (.pvDm g.dm_io)
  else if name = "rtc_config" then .ok (.pvCfg g.rtc_config)
  else if name = "model" then .ok (.pvModel g.model)
  else .error (.attributeError "RuntimeGlobals" name)

-- ----------------------------------------------------------------
-- Commands (`baldr_rtc/core/commands.py`, `rtc/loop.py`)
-- ----------------------------------------------------------------

/-- The inter-thread command messages.  The source uses dicts built by
`make_cmd(name, **payload)` and discriminated on `cmd["type"]`; this is
the corresponding tagged union, with one constructor per discriminant
that `_apply_command` recognises plus `unknown` for any other string
(which `_apply_command` silently ignores).  Payload fields carry the
values the dispatch handlers put into the dict. -/
inductive Cmd where
  | pause
  | resume
  | stop
  | setLO (value : Int)
  | setHO (value : Int)
  | setLOHO (lo ho : Int)
  | setTelem (enabled : Bool)
  | loadConfig (rtc_config : Option BDRConfig) (path : Option String)
  | unknown (t : String)

/-- Source: `RTCThread._apply_command(cmd)`: the state transition applied to the
run-state for one dequeued command.  `SET_LO`/`SET_HO`/`SET_LOHO` go
through `ServoState(int(...))` which raises `ValueError` on a non-member
value; everything else is total.  `LOAD_CONFIG` with a `None` payload is
a no-op; with a payload it swaps `rtc_config` and takes the `path`
payload (defaulting to the current `active_config_filename`). -/
def applyCommand (c : Cmd) (g : RuntimeGlobals) : Except PyErr RuntimeGlobals :=
  match c with
  | .pause => .ok { g with pause_rtc := true }
  | .resume => .ok { g with pause_rtc := false }
  | .stop => .ok { g with servo_mode := .SERVO_STOP }
  | .setLO v => do
    let s ← servoStateOfInt v
    .ok { g with servo_mode_LO := s }
  | .setHO v => do
    let s ← servoStateOfInt v
    .ok { g with servo_mode_HO := s }
  | .setLOHO lo ho => do
    let sLo ← servoStateOfInt lo
    let sHo ← servoStateOfInt ho
    .ok { g with servo_mode_LO := sLo, servo_mode_HO := sHo }
  | .setTelem b =>
    .ok { g with rtc_config := { g.rtc_config with
            state := { g.rtc_config.state with take_telemetry := b } } }
  | .loadConfig newCfg path =>
    match newCfg with
    | none => .ok g
    | some cfg =>
      .ok { g with rtc_config := cfg,
                   active_config_filename :=
                     (match path with
                      | some p => some p
                      | none => g.active_config_filename) }
  | .unknown _ => .ok g

/-- Commands on which `_apply_command` cannot raise: the servo-state
payloads are member values of `ServoState`. -/
def wfCmd : Cmd → Bool
  | .setLO v => v = 0 ∨ v = 1
  | .setHO v => v = 0 ∨ v = 1
  | .setLOHO lo ho => (lo = 0 ∨ lo = 1) ∧ (ho = 0 ∨ ho = 1)
  | _ => true

/-- Total companion of `applyCommand`, agreeing with it on well-formed
commands (`applyCommand_wf`). -/
def applyPure (c : Cmd) (g : RuntimeGlobals) : RuntimeGlobals :=
  match c with
  | .pause => { g with pause_rtc := true }
  | .resume => { g with pause_rtc := false }
  | .stop => { g with servo_mode := .SERVO_STOP }
  | .setLO v => { g with servo_mode_LO := if v = 0 then .SERVO_OPEN else .SERVO_CLOSE }
  | .setHO v => { g with servo_mode_HO := if v = 0 then .SERVO_OPEN else .SERVO_CLOSE }
  | .setLOHO lo ho =>
    { g with servo_mode_LO := if lo = 0 then .SERVO_OPEN else .SERVO_CLOSE,
             servo_mode_HO := if ho = 0 then .SERVO_OPEN else .SERVO_CLOSE }
  | .setTelem b =>
    { g with rtc_config := { g.rtc_config with
        state := { g.rtc_config.state with take_telemetry := b } } }
  | .loadConfig newCfg path =>
    match newCfg with
    | none => g
    | some cfg =>
      { g with rtc_config := cfg,
               active_config_filename :=
                 (match path with
                  | some p => some p
                  | none => g.active_config_filename) }
  | .unknown _ => g

-- ----------------------------------------------------------------
-- Control loop (`baldr_rtc/rtc/loop.py`, class RTCThread)
-- ----------------------------------------------------------------

/-- One telemetry record, as passed to `telem_ring.push(...)`. -/
structure TelemetrySample where
  frame_id : Nat
  t_s : ℚ
  lo_state : Int
  ho_state : Int
  paused : Bool
  metric_flux : ℚ
  metric_strehl : ℚ
  deriving Repr, DecidableEq

/-- Observable actions of one loop iteration. -/
inductive Event where
  /-- A command was dequeued and applied by `_drain_commands`. -/
  | cmdApplied (c : Cmd)
  /-- The control cycle obtained a camera frame (real or the all-zero
  fallback) for the given frame id. -/
  | frameAcq (fid : Nat)
  /-- Source: `dm_io.write(...)` was called. -/
  | dmWrite
  /-- Source: `telem_ring.push(...)` was called with the given sample. -/
  | telemPush (s : TelemetrySample)

/-- Result of `_drain_commands` together with the applied-command trace;
`err` records an exception escaping `_apply_command` (which would
propagate out of `run`). -/
structure DrainRes where
  g : RuntimeGlobals
  queue : List Cmd
  events : List Event
  err : Option PyErr

/-- Source: `_drain_commands`: `for _ in range(bound): get_nowait; apply`,
returning early when the queue is empty. -/
def drainLoop : Nat → RuntimeGlobals → List Cmd → DrainRes
  | 0, g, q => ⟨g, q, [], none⟩
  | _ + 1, g, [] => ⟨g, [], [], none⟩
  | n + 1, g, c :: q =>
    match applyCommand c g with
    | .error e => ⟨g, q, [], some e⟩
    | .ok g1 =>
      let r := drainLoop n g1 q
      ⟨r.g, r.queue, .cmdApplied c :: r.events, r.err⟩

/-- Source: `_drain_commands` with the source's bound of 100 per call. -/
def drainCommands (g : RuntimeGlobals) (q : List Cmd) : DrainRes :=
  drainLoop 100 g q

/-- The loop period source: `fps = float(cfg.fps) if cfg.fps > 0 else
1000.0` at the top of `run`. -/
def effectiveFps (cfg : BDRConfig) : ℚ :=
  if cfg.fps > 0 then cfg.fps else 1000

/-- Per-thread mutable state of `RTCThread.run`: the shared globals, the
pending command queue and the private `_frame_id` counter. -/
structure LoopState where
  g : RuntimeGlobals
  queue : List Cmd
  frame_id : Nat

/-- Environment oracles for the loop's non-deterministic inputs:
`np.random.normal` draws and `time.time()` stamps, indexed by frame id. -/
structure LoopEnv where
  rng : Nat → ℚ
  clock : Nat → ℚ

/-- Source: `np.clip(x, 0.0, 1.0)`. -/
def clip01 (x : ℚ) : ℚ := min (max x 0) 1

/-- Source: `float(np.mean(frame))` (mean over all entries; numpy's mean of an
empty array is NaN — irrelevant here since the fallback frame is the
non-empty `np.zeros((1, 1))`). -/
def frameMean (f : Frame) : ℚ :=
  let flat := f.flatten
  if flat.length = 0 then 0 else flat.sum / flat.length

/-- Outcome of one `while` iteration of `RTCThread.run`. -/
inductive IterOut where
  /-- Source: `servo_mode == SERVO_STOP` observed at the top: `stop_event.set()`
  and `break` — the thread terminates. -/
  | exited
  /-- An exception escaped `_apply_command`, killing the thread. -/
  | crashed (e : PyErr)
  /-- The iteration completed (control cycle or pause-sleep) and the
  loop proceeds with the new state. -/
  | next (st : LoopState)

/-- One iteration of the `while not self.stop_event.is_set()` loop of
`RTCThread.run`, with its observable events:
stop check → drain → pause check → frame → metrics → DM write →
telemetry push → sleep. -/
def loopIter (env : LoopEnv) (st : LoopState) : List Event × IterOut :=
  if st.g.servo_mode = MainState.SERVO_STOP then
    ([], .exited)
  else
    let r := drainCommands st.g st.queue
    match r.err with
    | some e => (r.events, .crashed e)
    | none =>
      if r.g.pause_rtc then
        (r.events, .next { g := r.g, queue := r.queue, frame_id := st.frame_id })
      else
        let fid := st.frame_id + 1
        let frame : Frame :=
          match r.g.camera_io with
          | none => [[0]]
          | some cam => cam fid
        let sample : TelemetrySample :=
          { frame_id := fid
            t_s := env.clock fid
            lo_state := r.g.servo_mode_LO.toInt
            ho_state := r.g.servo_mode_HO.toInt
            paused := r.g.pause_rtc
            metric_flux := frameMean frame
            metric_strehl := clip01 (env.rng fid) }
        let dmEvents : List Event :=
          match r.g.dm_io with
          | none => []
          | some _ => [.dmWrite]
        (r.events ++ [.frameAcq fid] ++ dmEvents ++ [.telemPush sample],
         .next { g := r.g, queue := r.queue, frame_id := fid })

/-- Final outcome of a fuelled run of the loop. -/
inductive RunOut where
  /-- The loop broke out after observing `SERVO_STOP`. -/
  | stoppedExit
  /-- Fuel exhausted with the loop still live. -/
  | fuelOut (st : LoopState)
  /-- The thread died on an exception. -/
  | crashed (e : PyErr)

/-- Up to `fuel` iterations of `RTCThread.run`, with the concatenated
event trace. -/
def runLoop (env : LoopEnv) : Nat → LoopState → List Event × RunOut
  | 0, st => ([], .fuelOut st)
  | n + 1, st =>
    match loopIter env st with
    | (ev, .exited) => (ev, .stoppedExit)
    | (ev, .crashed e) => (ev, .crashed e)
    | (ev, .next st1) =>
      let (ev1, r) := runLoop env n st1
      (ev ++ ev1, r)

-- ----------------------------------------------------------------
-- TOML access helpers (Python dict/`or`/`int()`/`str()` semantics)
-- ----------------------------------------------------------------

/-- Dict lookup `d.get(k)` on a parsed TOML value (`None` result when
the value is not a dict or the key is absent). -/
def TomlVal.get? (t : TomlVal) (k : String) : Option TomlVal :=
  match t with
  | .dict kvs => kvs.lookup k
  | _ => none

/-- Source: `d.get(k, dflt)`. -/
def TomlVal.getD (t : TomlVal) (k : String) (dflt : TomlVal) : TomlVal :=
  (t.get? k).getD dflt

/-- Source: `d[k]`, raising `KeyError` when absent. -/
def TomlVal.item (t : TomlVal) (k : String) : Except PyErr TomlVal :=
  match t.get? k with
  | some v => .ok v
  | none => .error (.keyError k)

/-- Python truthiness of a parsed TOML value. -/
def TomlVal.truthy : TomlVal → Bool
  | .dict kvs => !kvs.isEmpty
  | .arr l => !l.isEmpty
  | .str s => s != ""
  | .int i => i != 0
  | .float q => q != 0
  | .bool b => b

/-- Models `x if x is a dict else none` — the `isinstance(x, dict)` guard. -/
def TomlVal.asDict? : TomlVal → Option TomlVal
  | .dict kvs => some (.dict kvs)
  | _ => none

/-- Source: `len(x)`: defined for sized values, `TypeError` otherwise. -/
def TomlVal.pyLen (t : TomlVal) : Except PyErr Nat :=
  match t with
  | .dict kvs => .ok kvs.length
  | .arr l => .ok l.length
  | .str s => .ok s.length
  | _ => .error (.typeError "object has no len")

/-- Source: `int(x)` on a TOML scalar.  Numeric strings would also convert in
Python; the configs this repository reads store these keys as numbers,
and a non-numeric value raises, which the error case models. -/
def TomlVal.pyInt (t : TomlVal) : Except PyErr Int :=
  match t with
  | .int i => .ok i
  | .bool b => .ok (if b then 1 else 0)
  | .float q => .ok (q.num.tdiv q.den)  -- truncation toward zero
  | _ => .error (.typeError "int conversion")

/-- Source: `float(x)` on a TOML scalar. -/
def TomlVal.pyFloat (t : TomlVal) : Except PyErr ℚ :=
  match t with
  | .int i => .ok i
  | .float q => .ok q
  | .bool b => .ok (if b then 1 else 0)
  | _ => .error (.typeError "float conversion")

/-- Source: `bool(x)`. -/
def TomlVal.pyBool (t : TomlVal) : Bool := t.truthy

/-- Source: `str(x)`.  Exact renderings of containers/floats are irrelevant to
every property below (only string-typed TOML values flow into the
string fields that matter). -/
def TomlVal.pyStr (t : TomlVal) : String :=
  match t with
  | .str s => s
  | .int i => toString i
  | .float q => toString q
  | .bool b => if b then "True" else "False"
  | .arr _ => "<list>"
  | .dict _ => "<dict>"

/-- Source: `int(tbl.get(k, d) or d)` — the legacy reader's int-read idiom. -/
def tomlIntOr (tbl : TomlVal) (k : String) (d : Int) : Except PyErr Int :=
  let v := tbl.getD k (.int d)
  TomlVal.pyInt (if v.truthy then v else .int d)

/-- Source: `float(tbl.get(k, d) or d)` — the legacy reader's float-read idiom. -/
def tomlFloatOr (tbl : TomlVal) (k : String) (d : ℚ) : Except PyErr ℚ :=
  let v := tbl.getD k (.float d)
  TomlVal.pyFloat (if v.truthy then v else .float d)

/-- Source: `str(tbl.get(k, ""))`. -/
def tomlStrOr (tbl : TomlVal) (k : String) : String :=
  (tbl.getD k (.str "")).pyStr

/-- Source: `_get(d, k1, k2, default=None)` — the two-key nested lookup used by
`baldr_rtc/core/config.py` (every call site uses exactly two keys). -/
def tomlGet2 (d : TomlVal) (k1 k2 : String) : Option TomlVal :=
  match d.get? k1 with
  | some inner => inner.get? k2
  | none => none

-- ----------------------------------------------------------------
-- numpy conversions used by `_matmul` (`core/state.py`)
-- ----------------------------------------------------------------

/-- A single numeric entry of a TOML array. -/
def TomlVal.asNum? : TomlVal → Option ℚ
  | .int i => some (i : ℚ)
  | .float q => some q
  | .bool b => some (if b then 1 else 0)
  | _ => none

mutual

/-- Source: `np.asarray(x).reshape(-1)` for a (possibly nested) numeric value:
flattening.  Non-numeric leaves make numpy produce an object array on
which the arithmetic below fails; that is modelled as an error. -/
def TomlVal.asFlatVec : TomlVal → Except PyErr (List ℚ)
  | .arr l => do
    let parts ← asFlatVecList l
    .ok parts.flatten
  | t =>
    match t.asNum? with
    | some q => .ok [q]
    | none => .error (.typeError "not a numeric array")

def asFlatVecList : List TomlVal → Except PyErr (List (List ℚ))
  | [] => .ok []
  | x :: xs => do
    let v ← TomlVal.asFlatVec x
    let rest ← asFlatVecList xs
    .ok (v :: rest)

end

/-- Source: `np.asarray(A)` as a rectangular numeric 2-D matrix; ragged or
non-numeric input gives an object array whose `@` fails — an error. -/
def TomlVal.asMat : TomlVal → Except PyErr (List (List ℚ))
  | .arr rows => do
    let m ← rows.mapM (fun r =>
      match r with
      | .arr entries =>
        match entries.mapM TomlVal.asNum? with
        | some qs => .ok qs
        | none => .error (.typeError "not a numeric matrix")
      | _ => .error (.typeError "not a numeric matrix"))
    if m.all (fun r => r.length = (m.headD []).length) then .ok m
    else .error (.valueError "ragged matrix")
  | _ => .error (.typeError "not a numeric matrix")

/-- Dot product (equal lengths are guaranteed by `matmulT`). -/
def dotQ (a b : List ℚ) : ℚ := (List.zipWith (· * ·) a b).sum

/-- Source: `_matmul(A, x)`: best-effort `A @ x`; numpy raises on a dimension
mismatch. -/
def matmulT (A x : TomlVal) : Except PyErr (List ℚ) := do
  let m ← A.asMat
  let v ← x.asFlatVec
  if m.all (fun r => r.length = v.length) then
    .ok (m.map (fun r => dotQ r v))
  else
    .error (.valueError "matmul dimension mismatch")

/-- An `np.ndarray` vector stored back into an `Any` field. -/
def vecToToml (v : List ℚ) : TomlVal := .arr (v.map .float)

-- ----------------------------------------------------------------
-- Projections and validation on config sub-structures (`core/state.py`)
-- ----------------------------------------------------------------

/-- Source: `ReferencePupils.project_to_dm(I2A)`. -/
def ReferencePupils.projectToDm (rp : ReferencePupils) (I2A : TomlVal) :
    Except PyErr ReferencePupils := do
  let npd ← matmulT I2A rp.norm_pupil
  let i0d ← matmulT I2A rp.I0
  .ok { rp with norm_pupil_dm := vecToToml npd, I0_dm := vecToToml i0d }

/-- Source: `Filters.project_to_dm(I2A)`. -/
def Filters.projectToDm (f : Filters) (I2A : TomlVal) : Except PyErr Filters := do
  let bpm ← matmulT I2A f.bad_pixel_mask
  let pup ← matmulT I2A f.pupil
  let sec ← matmulT I2A f.secondary
  let ext ← matmulT I2A f.exterior
  let inn ← matmulT I2A f.inner_pupil_filt
  .ok { f with bad_pixel_mask_dm := vecToToml bpm, pupil_dm := vecToToml pup,
               secondary_dm := vecToToml sec, exterior_dm := vecToToml ext,
               inner_pupil_filt_dm := vecToToml inn }

/-- Source: `Pixels.validate`: `crop_pixels` must be a sized sequence of exactly
4 elements (the `is None` branch cannot fire here: the field always
holds a TOML value). -/
def Pixels.pyValidate (p : Pixels) : Except PyErr Unit :=
  match p.crop_pixels.pyLen with
  | .error _ => .error (.runtimeError "Pixels.crop_pixels is not a sized sequence")
  | .ok n =>
    if n ≠ 4 then
      .error (.runtimeError ("Pixels.crop_pixels must have 4 elements, got " ++ toString n))
    else .ok ()

-- ----------------------------------------------------------------
-- Config loading (`baldr_rtc/core/config.py`)
-- ----------------------------------------------------------------

/-- Source: `_load_toml(config_path)`: `Path(config_path).expanduser()`, an
existence check raising `FileNotFoundError`, `read_text` (which raises
`IsADirectoryError` on a directory), then the TOML parse (external
library; file nodes carry the parsed value). -/
def loadToml (fs : FS) (path : String) : Except PyErr TomlVal :=
  let p := pathNorm path
  match fs p with
  | .missing => .error (.fileNotFound p)
  | .directory => .error (.isADirectory p)
  | .file data => .ok data

/-- Source: `tuple(_get(data, "io", "null_shape", default=list(cfg.io_null_shape)))`:
with the default, the original pair; otherwise a 2-list of ints. -/
def tomlToShape (t : Option TomlVal) (dflt : Int × Int) : Except PyErr (Int × Int) :=
  match t with
  | none => .ok dflt
  | some (.arr [a, b]) => do
    let x ← a.pyInt
    let y ← b.pyInt
    .ok (x, y)
  | some _ => .error (.typeError "null_shape")

/-- Source: `readBDRConfig_simple(config_path, *, beam, phasemask)`. -/
def readBDRConfig_simple (fs : FS) (path : String) (beam : Int) (phasemask : String) :
    Except PyErr BDRConfig := do
  let data ← loadToml fs path
  let d := defaultBDRConfig
  let ioMode := match tomlGet2 data "io" "mode" with
    | none => d.io_mode
    | some t => t.pyStr
  let ioBeam ← match tomlGet2 data "io" "beam" with
    | none => pure beam
    | some t => t.pyInt
  let camPath := match tomlGet2 data "io" "cam_path" with
    | none => d.io_cam_path
    | some t => t.pyStr
  let dmPath := match tomlGet2 data "io" "dm_path" with
    | none => d.io_dm_path
    | some t => t.pyStr
  let shmNosem := match tomlGet2 data "io" "shm_nosem" with
    | none => d.io_shm_nosem
    | some t => t.pyBool
  let shmSemid ← match tomlGet2 data "io" "shm_semid" with
    | none => pure d.io_shm_semid
    | some t => t.pyInt
  let nullShape ← tomlToShape (tomlGet2 data "io" "null_shape") d.io_null_shape
  .ok { d with
        state := { d.state with phasemask := phasemask },
        io_mode := ioMode, io_beam := ioBeam,
        io_cam_path := camPath, io_dm_path := dmPath,
        io_shm_nosem := shmNosem, io_shm_semid := shmSemid,
        io_null_shape := nullShape }

/-- The `camera_config` sub-table read of the legacy reader (all
`str(cam_tbl.get(key, ""))`). -/
def camFromTbl (t : TomlVal) : CamConfig :=
  { fps := tomlStrOr t "fps", gain := tomlStrOr t "gain",
    testpattern := tomlStrOr t "testpattern", bias := tomlStrOr t "bias",
    flat := tomlStrOr t "flat", imagetags := tomlStrOr t "imagetags",
    led := tomlStrOr t "led", events := tomlStrOr t "events",
    extsynchro := tomlStrOr t "extsynchro", rawimages := tomlStrOr t "rawimages",
    cooling := tomlStrOr t "cooling", mode := tomlStrOr t "mode",
    resetwidth := tomlStrOr t "resetwidth", nbreadworeset := tomlStrOr t "nbreadworeset",
    cropping := tomlStrOr t "cropping", cropping_columns := tomlStrOr t "cropping_columns",
    cropping_rows := tomlStrOr t "cropping_rows", aduoffset := tomlStrOr t "aduoffset" }

/-- Source: `readBDRConfig_legacy(config_path, *, beam, phasemask)` — the full
legacy TOML read-in.  Fields are filled in the source's order; every
`tbl[key]` raises `KeyError` when absent and every conversion can raise,
exactly as in Python. -/
def readBDRConfig_legacy (fs : FS) (path : String) (beam : Int) (phasemask : String) :
    Except PyErr BDRConfig := do
  let data ← loadToml fs path
  let d := defaultBDRConfig
  let beamKey := "beam" ++ toString beam
  let beamTbl ← match data.get? beamKey with
    | some (.dict kvs) => pure (TomlVal.dict kvs)
    | _ => .error (.runtimeError ("Beam configuration not found for key: " ++ beamKey))
  let phaseTbl ← match beamTbl.get? phasemask with
    | some (.dict kvs) => pure (TomlVal.dict kvs)
    | _ => .error (.runtimeError ("Phase mask " ++ phasemask ++ " not found under " ++ beamKey))
  let ctrlTbl ← match phaseTbl.get? "ctrl_model" with
    | some (.dict kvs) => pure (TomlVal.dict kvs)
    | _ => .error (.runtimeError ("Missing ctrl_model table under " ++ beamKey ++ "." ++ phasemask))
  -- ---- state ----
  let lo ← tomlIntOr ctrlTbl "LO" 0
  let autoClose ← tomlIntOr ctrlTbl "auto_close" 0
  let autoOpen ← tomlIntOr ctrlTbl "auto_open" 1
  -- replicate the buggy-legacy "auto_tuen" spelling tolerance
  let autoTuneV := match ctrlTbl.get? "auto_tuen" with
    | some v => v
    | none =>
      match ctrlTbl.get? "auto_tune" with
      | some v => v
      | none => TomlVal.int 0
  let autoTune ← autoTuneV.pyInt
  let st : StateConfig :=
    { d.state with
      DM_flat := tomlStrOr ctrlTbl "DM_flat",
      signal_space := tomlStrOr ctrlTbl "signal_space",
      LO := lo,
      controller_type := tomlStrOr ctrlTbl "controller_type",
      inverse_method_LO := tomlStrOr ctrlTbl "inverse_method_LO",
      inverse_method_HO := tomlStrOr ctrlTbl "inverse_method_HO",
      phasemask := phasemask,
      auto_close := autoClose, auto_open := autoOpen, auto_tune := autoTune,
      simulation_mode := 0 }
  -- ---- pixels ----
  let crop ← ctrlTbl.item "crop_pixels"
  let pupilPix ← ctrlTbl.item "pupil_pixels"
  let badPix ← ctrlTbl.item "bad_pixels"
  let interiorPix ← ctrlTbl.item "interior_pixels"
  let secondaryPix ← ctrlTbl.item "secondary_pixels"
  let exteriorPix ← ctrlTbl.item "exterior_pixels"
  let pixels : Pixels :=
    { crop_pixels := crop, pupil_pixels := pupilPix, bad_pixels := badPix,
      interior_pixels := interiorPix, secondary_pixels := secondaryPix,
      exterior_pixels := exteriorPix }
  let _ ← pixels.pyValidate
  -- ---- filters ----
  let bpm ← ctrlTbl.item "bad_pixel_mask"
  let pup ← ctrlTbl.item "pupil"
  let sec ← ctrlTbl.item "secondary"
  let ext ← ctrlTbl.item "exterior"
  let inn ← ctrlTbl.item "inner_pupil_filt"
  let filters0 : Filters :=
    { bad_pixel_mask := bpm, pupil := pup, secondary := sec,
      exterior := ext, inner_pupil_filt := inn }
  -- ---- matrices ----
  let szm ← tomlIntOr ctrlTbl "szm" 0
  let sza ← tomlIntOr ctrlTbl "sza" 0
  let szp ← tomlIntOr ctrlTbl "szp" 0
  let i2a ← ctrlTbl.item "I2A"
  let i2mLO ← ctrlTbl.item "I2M_LO"
  let i2mHO ← ctrlTbl.item "I2M_HO"
  let m2c ← ctrlTbl.item "M2C"
  let m2cLO ← ctrlTbl.item "M2C_LO"
  let m2cHO ← ctrlTbl.item "M2C_HO"
  let i2rmsSec ← ctrlTbl.item "I2rms_sec"
  let i2rmsExt ← ctrlTbl.item "I2rms_ext"
  let mats : Matrices :=
    { d.matrices with
      szm := szm, sza := sza, szp := szp,
      I2A := i2a, I2M_LO := i2mLO, I2M_HO := i2mHO,
      M2C := m2c, M2C_LO := m2cLO, M2C_HO := m2cHO,
      I2rms_sec := i2rmsSec, I2rms_ext := i2rmsExt }
  -- ---- reference pupils ----
  let i0 ← ctrlTbl.item "I0"
  let n0 ← ctrlTbl.item "N0"
  let normPupil ← ctrlTbl.item "norm_pupil"
  let intrnFlx ← tomlFloatOr ctrlTbl "intrn_flx_I0" 1
  let rp0 : ReferencePupils :=
    { d.reference_pupils with
      I0 := i0, N0 := n0, norm_pupil := normPupil, intrn_flx_I0 := intrnFlx }
  -- projections to DM space
  let rp ← rp0.projectToDm mats.I2A
  let filters ← filters0.projectToDm mats.I2A
  -- ---- limits ----
  let closeStrehl ← tomlFloatOr ctrlTbl "close_on_strehl_limit" 0
  let openStrehl ← tomlFloatOr ctrlTbl "open_on_strehl_limit" 0
  let openFlux ← tomlFloatOr ctrlTbl "open_on_flux_limit" 0
  let openDm ← tomlFloatOr ctrlTbl "open_on_dm_limit" 0
  let loOffload ← tomlFloatOr ctrlTbl "LO_offload_limit" 0
  let lims : Limits :=
    { close_on_strehl_limit := closeStrehl, open_on_strehl_limit := openStrehl,
      open_on_flux_limit := openFlux, open_on_dm_limit := openDm,
      LO_offload_limit := loOffload }
  -- ---- camera_config ----
  let cam := match ctrlTbl.get? "camera_config" with
    | some (.dict kvs) => camFromTbl (.dict kvs)
    | _ => d.cam
  -- ---- Python IO section (optional) ----
  let ioMode := match tomlGet2 data "io" "mode" with
    | none => d.io_mode
    | some t => t.pyStr
  let ioBeam ← match tomlGet2 data "io" "beam" with
    | none => pure d.io_beam
    | some t => t.pyInt
  let camPath := match tomlGet2 data "io" "cam_path" with
    | none => d.io_cam_path
    | some t => t.pyStr
  let dmPath := match tomlGet2 data "io" "dm_path" with
    | none => d.io_dm_path
    | some t => t.pyStr
  let shmNosem := match tomlGet2 data "io" "shm_nosem" with
    | none => d.io_shm_nosem
    | some t => t.pyBool
  let zmqCam := match tomlGet2 data "io" "zmq_cam_addr" with
    | none => d.io_zmq_cam_addr
    | some t => t.pyStr
  let zmqDm := match tomlGet2 data "io" "zmq_dm_addr" with
    | none => d.io_zmq_dm_addr
    | some t => t.pyStr
  .ok { d with
        state := st, pixels := pixels, filters := filters, matrices := mats,
        reference_pupils := rp, limits := lims, cam := cam,
        io_mode := ioMode, io_beam := ioBeam,
        io_cam_path := camPath, io_dm_path := dmPath, io_shm_nosem := shmNosem,
        io_zmq_cam_addr := zmqCam, io_zmq_dm_addr := zmqDm }

/-- Source: `readBDRConfig(config_path, *, beam=1, phasemask="H1")`: dispatch to
the legacy reader when the `beam{beam}` table exists, the simple reader
otherwise. -/
def readBDRConfig (fs : FS) (path : String) (beam : Int) (phasemask : String) :
    Except PyErr BDRConfig := do
  let data ← loadToml fs path
  let beamKey := "beam" ++ toString beam
  match data.get? beamKey with
  | some (.dict _) => readBDRConfig_legacy fs path beam phasemask
  | _ => readBDRConfig_simple fs path beam phasemask

-- ----------------------------------------------------------------
-- Commander dispatch (`commander/commands.py`, `commander/module.py`)
-- ----------------------------------------------------------------

/-- Source: `str(x)` of a JSON argument (exact renderings of non-string values
are irrelevant here: the only argument the registered handlers convert
is the config path, a string). -/
def pyStrJ : Json → String
  | .jStr s => s
  | .jBool b => if b then "True" else "False"
  | .jNull => "None"
  | .jNum q => toString q
  | .jArr _ => "<list>"
  | .jObj _ => "<dict>"

/-- A dispatch handler as registered with `Module.def_command`: from the
shared globals, the filesystem and the JSON argument list to the
(possibly mutated) globals, the commands it enqueued, and its JSON
result or the exception it raised.  Effects that happen before a raise
are kept, as in Python. -/
abbrev Handler := RuntimeGlobals → FS → List Json → RuntimeGlobals × List Cmd × Except PyErr Json

/-- The `{"ok": True}` result shared by most handlers. -/
def okObj : Json := .jObj [("ok", .jBool true)]

/-- Source: `configured = 1 if (len(cfg.matrices.I2M_LO) > 0 or
len(cfg.matrices.I2M_HO) > 0) else 0` in `read_bdr`, with Python's
short-circuiting `or`. -/
def readBdrConfigured (cfg : BDRConfig) : Except PyErr ℚ := do
  let lenLO ← cfg.matrices.I2M_LO.pyLen
  if lenLO > 0 then
    .ok 1
  else do
    let lenHO ← cfg.matrices.I2M_HO.pyLen
    .ok (if lenHO > 0 then 1 else 0)

/-- Source: `read_bdr(args)` — the `readBDRConfig` command handler.  Note the
direct run-state write `globals_.active_config_filename = path`, made on
the dispatch thread right after the `LOAD_CONFIG` command is enqueued. -/
def readBdrH : Handler := fun g fs args =>
  let path := match args with
    | [] => ""
    | a :: _ => pyStrJ a
  match readBDRConfig fs path 1 "H1" with
  | .error e => (g, [], .error e)
  | .ok cfg =>
    let queued := [Cmd.loadConfig (some cfg) (some path)]
    let g1 := { g with active_config_filename := some path }
    match readBdrConfigured cfg with
    | .error e => (g1, queued, .error e)
    | .ok configured =>
      (g1, queued, .ok (.jObj
        [("ok", .jBool true), ("config_file", .jStr path),
         ("configured", .jNum configured), ("frequency", .jNum cfg.fps)]))

/-- Source: `pause_rtc(args)`. -/
def pauseRtcH : Handler := fun g _ _ => (g, [.pause], .ok okObj)

/-- Source: `resume_rtc(args)`. -/
def resumeRtcH : Handler := fun g _ _ => (g, [.resume], .ok okObj)

/-- Source: `stop_baldr(args)`. -/
def stopBaldrH : Handler := fun g _ _ =>
  (g, [.stop], .ok (.jObj
    [("ok", .jBool true), ("servo_mode", .jNum (MainState.SERVO_STOP.toInt : ℚ))]))

/-- Source: `close_all(args)` (`SET_LOHO` with `SERVO_CLOSE = 1` for both). -/
def closeAllH : Handler := fun g _ _ => (g, [.setLOHO 1 1], .ok okObj)

/-- Source: `open_all(args)`. -/
def openAllH : Handler := fun g _ _ => (g, [.setLOHO 0 0], .ok okObj)

/-- Source: `close_lo(args)`. -/
def closeLoH : Handler := fun g _ _ => (g, [.setLO 1], .ok okObj)

/-- Source: `open_lo(args)`. -/
def openLoH : Handler := fun g _ _ => (g, [.setLO 0], .ok okObj)

/-- Source: `close_ho(args)`. -/
def closeHoH : Handler := fun g _ _ => (g, [.setHO 1], .ok okObj)

/-- Source: `open_ho(args)`. -/
def openHoH : Handler := fun g _ _ => (g, [.setHO 0], .ok okObj)

/-- Models `x or "unknown"` applied to a dynamically-read attribute value
(unreachable in practice: the read it follows raises first). -/
def pvOrUnknown : PyValue → String
  | .pvStr s => if s = "" then "unknown" else s
  | .pvOptStr (some s) => if s = "" then "unknown" else s
  | _ => "unknown"

/-- Source: `status(args)` — the status snapshot handler.  Reads only; builds
its dict in source order.  The read of `globals_.observing_mode` goes
through dynamic attribute lookup because `RuntimeGlobals` declares no
such field (its declared field is `mode`). -/
def statusH : Handler := fun g _ _ =>
  let cfg := g.rtc_config
  (g, [], do
    let lenLO ← cfg.matrices.I2M_LO.pyLen
    let lenHO ← cfg.matrices.I2M_HO.pyLen
    let configured : ℚ := if lenLO > 0 ∨ lenHO > 0 then 1 else 0
    let om ← g.dynAttr "observing_mode"
    .ok (.jObj
      [("TT_state", .jNum (g.servo_mode_LO.toInt : ℚ)),
       ("HO_state", .jNum (g.servo_mode_HO.toInt : ℚ)),
       ("mode", .jStr (pvOrUnknown om)),
       ("phasemask", .jStr (if g.phasemask = "" then "unknown" else g.phasemask)),
       ("frequency", .jNum cfg.fps),
       ("configured", .jNum configured),
       ("ctrl_type", .jStr cfg.state.controller_type),
       ("config_file", .jStr
         (match g.active_config_filename with
          | some s => if s = "" then "unknown" else s
          | none => "unknown")),
       ("inj_enabled", .jNum (if cfg.inj_signal.enabled then 1 else 0)),
       ("auto_loop", .jNum (if cfg.state.auto_close ≠ 0 then 1 else 0)),
       ("close_on_strehl", .jNum cfg.limits.close_on_strehl_limit),
       ("open_on_strehl", .jNum cfg.limits.open_on_strehl_limit),
       ("close_on_snr", .jNum 2),
       ("open_on_snr", .jNum cfg.limits.open_on_flux_limit),
       ("TT_offsets", .jNum 0)]))

/-- The registry built by `build_commander_module`, in `def_command`
order. -/
def commanderRegistry : List (String × Handler) :=
  [("readBDRConfig", readBdrH),
   ("pauseRTC", pauseRtcH),
   ("resumeRTC", resumeRtcH),
   ("stop_baldr", stopBaldrH),
   ("close_all", closeAllH),
   ("open_all", openAllH),
   ("close_baldr_LO", closeLoH),
   ("open_baldr_LO", openLoH),
   ("close_baldr_HO", closeHoH),
   ("open_baldr_HO", openHoH),
   ("status", statusH)]

/-- Result of `Module.execute`: the run-state and queue effects, the
JSON reply sent on the wire, and (as a ghost observer used by the
theorems) the exception `Module.execute` caught, if any. -/
structure DispatchRes where
  g : RuntimeGlobals
  queued : List Cmd
  reply : Json
  raised : Option PyErr

/-- Source: `Module.execute(name, args)`: unknown names give an error object;
a handler exception is caught and rendered as `{"error": str(e)}`
(`CPython` quotes the name in the not-found message; quotes omitted). -/
def dispatchExecute (g : RuntimeGlobals) (fs : FS) (name : String) (args : List Json) :
    DispatchRes :=
  match commanderRegistry.lookup name with
  | none => ⟨g, [], .jObj [("error", .jStr ("Command " ++ name ++ " not found."))], none⟩
  | some h =>
    match h g fs args with
    | (g1, q, .ok j) => ⟨g1, q, j, none⟩
    | (g1, q, .error e) => ⟨g1, q, errObj e, some e⟩

-- ----------------------------------------------------------------
-- Concrete fixtures used by the witness/counterexample theorems
-- ----------------------------------------------------------------

/-- A fixed environment: zero random draws and a zero clock. -/
def env0 : LoopEnv := ⟨fun _ => 0, fun _ => 0⟩

/-- Fresh globals after a `STOP` has been applied. -/
def gStop : RuntimeGlobals := { defaultGlobals with servo_mode := .SERVO_STOP }

/-- A loop state whose globals carry `servo_mode = SERVO_STOP`. -/
def stStop : LoopState := ⟨gStop, [], 0⟩

/-- A filesystem where only the current directory exists. -/
def fsDot : FS := fun p => if p = "." then .directory else .missing

/-- A filesystem with one parseable (empty) config file. -/
def fsCfg : FS := fun p =>
  if p = "cfg.toml" then .file (.dict [])
  else if p = "." then .directory
  else .missing

/-- A configuration with the (universal) default `fps = 0` and a marker
change so that a swap is visible. -/
def cfgZeroFps : BDRConfig := { defaultBDRConfig with io_mode := "shm" }

/-- A small command queue of well-formed commands. -/
def qSmall : List Cmd := [Cmd.pause, Cmd.setLO 1, Cmd.stop, Cmd.resume]

/-- The PID controller built by
`build_controller("pid", n, dt=dt, kp=1, ki=0, kd=0)`. -/
def pidUnit (n : Nat) (dt : ℚ) : PIDController :=
  { kp := List.replicate n 1, ki := List.replicate n 0, kd := List.replicate n 0,
    dt := dt, u_min := none, u_max := none, setpoint := none,
    iState := List.replicate n 0, ePrev := List.replicate n 0 }

/-- The PID controller built by `build_controller("pid", n)` with every
gain omitted. -/
def pidZero (n : Nat) : PIDController :=
  { kp := List.replicate n 0, ki := List.replicate n 0, kd := List.replicate n 0,
    dt := 1, u_min := none, u_max := none, setpoint := none,
    iState := List.replicate n 0, ePrev := List.replicate n 0 }

/-- The leaky integrator built by
`build_controller("leaky", n, rho=1, ki=1, kp=0)`. -/
def leakyUnit (n : Nat) : LeakyIntegrator :=
  { rho := List.replicate n 1, ki := List.replicate n 1, kp := some (List.replicate n 0),
    u_min := none, u_max := none, setpoint := none, state := List.replicate n 0 }

/-- The leaky integrator built by `build_controller("leaky", n)` with
every gain omitted (`rho` defaults to ones, `ki` to zeros, `kp` stays
`None`). -/
def leakyDefault (n : Nat) : LeakyIntegrator :=
  { rho := List.replicate n 1, ki := List.replicate n 0, kp := none,
    u_min := none, u_max := none, setpoint := none, state := List.replicate n 0 }

/-- Source: `leakyDefault` with the proportional gain materialised as the zero
vector instead of `None`. -/
def leakyDefaultZ (n : Nat) : LeakyIntegrator :=
  { leakyDefault n with kp := some (List.replicate n 0) }

/-- The controller state after `k` successive `process(e)` calls. -/
def leakyAfter (c : LeakyIntegrator) (e : List ℚ) : Nat → LeakyIntegrator
  | 0 => c
  | k + 1 => (leakyProcess (leakyAfter c e k) e).2

/-- Invariant carried by `pidUnit n dt` across `process` calls: fixed
unit/zero gains, no setpoint or clipping, state vectors of length `n`. -/
def pidUnitP (n : Nat) (dt : ℚ) (c : PIDController) : Prop :=
  c.kp = List.replicate n 1 ∧ c.ki = List.replicate n 0 ∧ c.kd = List.replicate n 0 ∧
  c.dt = dt ∧ c.u_min = none ∧ c.u_max = none ∧ c.setpoint = none ∧
  c.iState.length = n ∧ c.ePrev.length = n

-- ================================================================
-- Theorems
-- ================================================================

-- Element-wise arithmetic lemmas on vectors.

theorem zip_mul_one_left (e : List ℚ) :
    List.zipWith (· * ·) (List.replicate e.length 1) e = e := by
  induction e with
  | nil => rfl
  | cons x xs ih => simp [List.replicate, ih]

theorem zip_mul_zero_left (n : Nat) (x : List ℚ) (h : x.length = n) :
    List.zipWith (· * ·) (List.replicate n 0) x = List.replicate n 0 := by
  induction x generalizing n with
  | nil => subst h; rfl
  | cons a as ih =>
    subst h
    simp [List.replicate, ih]

theorem zip_add_zero_right (n : Nat) (e : List ℚ) (h : e.length = n) :
    List.zipWith (· + ·) e (List.replicate n 0) = e := by
  induction e generalizing n with
  | nil => subst h; rfl
  | cons a as ih =>
    subst h
    simp [List.replicate, ih]

theorem pid_unit_step (n : Nat) (dt : ℚ) (c : PIDController) (e : List ℚ)
    (hc : pidUnitP n dt c) (he : e.length = n) :
    (pidProcess c e).1 = e ∧ pidUnitP n dt (pidProcess c e).2 := by
  obtain ⟨hkp, hki, hkd, hdt, hmin, hmax, hsp, hi, hp⟩ := hc
  have hiNew : (List.zipWith (· + ·) c.iState (e.map (· * c.dt))).length = n := by
    simp [List.length_zipWith, hi, he]
  have hd : ((List.zipWith (· - ·) e c.ePrev).map (· * (1 / c.dt))).length = n := by
    simp [List.length_zipWith, hp, he]
  constructor
  · show (pidProcess c e).1 = e
    simp only [pidProcess, hsp, hkp, hki, hkd, hmin, hmax, clipOpt]
    have h1 : List.replicate n (1 : ℚ) = List.replicate e.length 1 := by rw [he]
    rw [h1, zip_mul_one_left, zip_mul_zero_left n _ hiNew, zip_mul_zero_left n _ hd,
        zip_add_zero_right n e he, zip_add_zero_right n e he]
  · refine ⟨hkp, hki, hkd, hdt, hmin, hmax, hsp, ?_, ?_⟩
    · simpa [pidProcess, hsp] using hiNew
    · simp [pidProcess, hsp, he]

theorem pid_unit_fold (n : Nat) (dt : ℚ) (es : List (List ℚ))
    (hes : ∀ x ∈ es, x.length = n) (c : PIDController) (hc : pidUnitP n dt c) :
    pidUnitP n dt (es.foldl (fun cc x => (pidProcess cc x).2) c) := by
  induction es generalizing c with
  | nil => exact hc
  | cons x xs ih =>
    have hx : x.length = n := hes x (by simp)
    have := (pid_unit_step n dt c x hc hx).2
    exact ih (fun y hy => hes y (by simp [hy])) _ this

/-- C6: a PID controller constructed with `kp = 1`, `ki = kd = 0`, no
setpoint and no clipping is the identity: after any number of prior
`process` calls (on right-sized inputs), `process(e)` returns exactly
`e`.  The first conjunct pins the constructed controller to
`build_controller("pid", n, dt=dt, kp=1, ki=0, kd=0)`. -/
theorem c6_pid_unit_identity (n : Nat) (dt : ℚ) (es : List (List ℚ)) (e : List ℚ)
    (hdt : 0 < dt) (hes : ∀ x ∈ es, x.length = n) (he : e.length = n) :
    buildController "pid" n dt (some (.scalar 1)) (some (.scalar 0)) (some (.scalar 0))
        none none none none = .ok (.pid (pidUnit n dt))
    ∧ (pidProcess (es.foldl (fun cc x => (pidProcess cc x).2) (pidUnit n dt)) e).1 = e := by
  constructor
  · have hmk : mkPIDController (List.replicate n 1) (List.replicate n 0)
        (List.replicate n 0) dt none none none = .ok (pidUnit n dt) := by
      simp [mkPIDController, pidUnit, not_le.mpr hdt]
    simp +decide only [buildController, asVec]
    show Ctrl.pid <$> mkPIDController (List.replicate n 1) (List.replicate n 0)
        (List.replicate n 0) dt none none none = Except.ok (.pid (pidUnit n dt))
    rw [hmk]
    rfl
  · have hc0 : pidUnitP n dt (pidUnit n dt) := by
      refine ⟨rfl, rfl, rfl, rfl, rfl, rfl, rfl, ?_, ?_⟩ <;> simp [pidUnit]
    exact (pid_unit_step n dt _ e (pid_unit_fold n dt es hes _ hc0) he).1

/-- C6 witness: concrete instance with one prior `process` call. -/
theorem c6_pid_unit_identity_witness :
    buildController "pid" 2 1 (some (.scalar 1)) (some (.scalar 0)) (some (.scalar 0))
        none none none none = .ok (.pid (pidUnit 2 1))
    ∧ (pidProcess ([[3, 4]].foldl (fun cc x => (pidProcess cc x).2) (pidUnit 2 1))
        [5, -7]).1 = [5, -7] :=
  c6_pid_unit_identity 2 1 [[3, 4]] [5, -7] (by norm_num)
    (by intro x hx; simp at hx; simp [hx]) (by simp)

theorem map_zero_smul (e : List ℚ) :
    e.map (fun x => (0 : ℚ) * x) = List.replicate e.length 0 := by
  induction e with
  | nil => rfl
  | cons a as ih => simp [List.replicate, ih]

theorem zip_add_map_smul (m : ℚ) (e : List ℚ) :
    List.zipWith (· + ·) (e.map (fun x => m * x)) e = e.map (fun x => (m + 1) * x) := by
  induction e with
  | nil => rfl
  | cons a as ih =>
    simp [ih]
    ring

theorem zip_mul_one_left_n (n : Nat) (x : List ℚ) (h : x.length = n) :
    List.zipWith (· * ·) (List.replicate n 1) x = x := by
  rw [← h]
  exact zip_mul_one_left x

theorem leaky_unit_step (n : Nat) (s e : List ℚ) (hs : s.length = n) (he : e.length = n) :
    leakyProcess { leakyUnit n with state := s } e
      = (List.zipWith (· + ·) s e,
         { leakyUnit n with state := List.zipWith (· + ·) s e }) := by
  have hlen : (List.zipWith (· + ·) s e).length = n := by
    simp [List.length_zipWith, hs, he]
  simp only [leakyProcess, leakyUnit]
  rw [zip_mul_one_left_n n s hs, zip_mul_one_left_n n e he,
      zip_mul_zero_left n e he, zip_add_zero_right n _ hlen]
  simp [clipOpt]

theorem leaky_unit_after (n : Nat) (e : List ℚ) (he : e.length = n) (k : Nat) :
    leakyAfter (leakyUnit n) e k
      = { leakyUnit n with state := e.map (fun x => (k : ℚ) * x) } := by
  induction k with
  | zero =>
    show leakyUnit n = _
    rw [show e.map (fun x => ((0 : Nat) : ℚ) * x) = e.map (fun x => (0 : ℚ) * x) from by
          norm_num,
        map_zero_smul, he]
    rfl
  | succ k ih =>
    show (leakyProcess (leakyAfter (leakyUnit n) e k) e).2 = _
    have hlen : (e.map (fun x => (k : ℚ) * x)).length = n := by simp [he]
    rw [ih, leaky_unit_step n _ e hlen he]
    show ({ leakyUnit n with
            state := List.zipWith (· + ·) (e.map (fun x => (k : ℚ) * x)) e } :
          LeakyIntegrator) = _
    rw [zip_add_map_smul,
        show ((k : ℚ) + 1) = ((k + 1 : Nat) : ℚ) from by push_cast; ring]

theorem leaky_unit_out (n : Nat) (e : List ℚ) (he : e.length = n) (k : Nat) :
    (leakyProcess (leakyAfter (leakyUnit n) e k) e).1
      = e.map (fun x => ((k : ℚ) + 1) * x) := by
  have hlen : (e.map (fun x => (k : ℚ) * x)).length = n := by simp [he]
  rw [leaky_unit_after n e he k, leaky_unit_step n _ e hlen he]
  show List.zipWith (· + ·) (e.map (fun x => (k : ℚ) * x)) e = _
  rw [zip_add_map_smul]

/-- C7: a leaky integrator constructed with `rho = 1`, `ki = 1`,
`kp = 0`, no setpoint and no clipping, driven `k ≥ 1` times with the
same error `e`, holds internal state `k * e` and its `k`-th `process`
call returns that state.  The first conjunct pins the constructed
controller to `build_controller("leaky", n, rho=1, ki=1, kp=0)`. -/
theorem c7_leaky_accumulates (n k : Nat) (e : List ℚ) (he : e.length = n) (hk : 1 ≤ k) :
    buildController "leaky" n 1 (some (.scalar 0)) (some (.scalar 1)) none
        (some (.scalar 1)) none none none = .ok (.leaky (leakyUnit n))
    ∧ (leakyAfter (leakyUnit n) e k).state = e.map (fun x => (k : ℚ) * x)
    ∧ (leakyProcess (leakyAfter (leakyUnit n) e (k - 1)) e).1
        = e.map (fun x => (k : ℚ) * x) := by
  refine ⟨?_, ?_, ?_⟩
  · have hmk : mkLeakyIntegrator (List.replicate n 1) (List.replicate n 1)
        (some (List.replicate n 0)) none none none = .ok (leakyUnit n) := by
      simp [mkLeakyIntegrator, leakyUnit]
    simp +decide only [buildController, asVec]
    show Ctrl.leaky <$> mkLeakyIntegrator (List.replicate n 1) (List.replicate n 1)
        (some (List.replicate n 0)) none none none = Except.ok (.leaky (leakyUnit n))
    rw [hmk]
    rfl
  · rw [leaky_unit_after n e he k]
  · obtain ⟨m, rfl⟩ : ∃ m, k = m + 1 := ⟨k - 1, (Nat.succ_pred_eq_of_pos hk).symm⟩
    rw [Nat.add_sub_cancel, leaky_unit_out n e he m]
    have : ((m : ℚ) + 1) = ((m + 1 : Nat) : ℚ) := by push_cast; ring
    rw [this]

/-- C7 witness: three steps on a concrete two-element error vector. -/
theorem c7_leaky_accumulates_witness :
    buildController "leaky" 2 1 (some (.scalar 0)) (some (.scalar 1)) none
        (some (.scalar 1)) none none none = .ok (.leaky (leakyUnit 2))
    ∧ (leakyAfter (leakyUnit 2) [4, -6] 3).state = [4, -6].map (fun x => (3 : ℚ) * x)
    ∧ (leakyProcess (leakyAfter (leakyUnit 2) [4, -6] (3 - 1)) [4, -6]).1
        = [4, -6].map (fun x => (3 : ℚ) * x) :=
  c7_leaky_accumulates 2 3 [4, -6] (by simp) (by norm_num)

/-- C9: a `LOAD_CONFIG` command whose `rtc_config` payload is `None`
leaves the entire run-state unchanged and raises nothing
(`_apply_command` only swaps when `cmd.get("rtc_config")` is not
`None`). -/
theorem c9_load_config_none_noop (g : RuntimeGlobals) (p : Option String) :
    applyCommand (.loadConfig none p) g = .ok g := rfl

/-- C10: `build_controller` rejects (with `UserWarning`) every
`controller_type` whose stripped lower-cased form is neither `"pid"`
nor `"leaky"`; for those two it returns a controller of dimensionality
`n`, with omitted gains defaulting to zero vectors (`rho` to ones, and
the leaky `kp` staying `None`, which behaves exactly like the zero
vector). -/
theorem c10_build_controller (s : String) (n : Nat) :
    (pyLower (pyStrip s) ≠ "pid" → pyLower (pyStrip s) ≠ "leaky" →
      buildController s n 1 none none none none none none none
        = .error (.userWarning s))
    ∧ buildController "pid" n 1 none none none none none none none
        = .ok (.pid (pidZero n))
    ∧ buildController "leaky" n 1 none none none none none none none
        = .ok (.leaky (leakyDefault n))
    ∧ Ctrl.dim (.pid (pidZero n)) = n
    ∧ Ctrl.dim (.leaky (leakyDefault n)) = n
    ∧ (∀ e : List ℚ, e.length = n →
        (leakyProcess (leakyDefault n) e).1 = (leakyProcess (leakyDefaultZ n) e).1
        ∧ (leakyProcess (leakyDefault n) e).2.state
            = (leakyProcess (leakyDefaultZ n) e).2.state) := by
  refine ⟨?_, ?_, ?_, ?_, ?_, ?_⟩
  · intro h1 h2
    simp only [buildController, if_neg h1, if_neg h2]
  · have hmk : mkPIDController (List.replicate n 0) (List.replicate n 0)
        (List.replicate n 0) 1 none none none = .ok (pidZero n) := by
      simp [mkPIDController, pidZero]
    simp +decide only [buildController, asVec]
    show Ctrl.pid <$> mkPIDController (List.replicate n 0) (List.replicate n 0)
        (List.replicate n 0) 1 none none none = Except.ok (.pid (pidZero n))
    rw [hmk]
    rfl
  · have hmk : mkLeakyIntegrator (List.replicate n 1) (List.replicate n 0)
        none none none none = .ok (leakyDefault n) := by
      simp [mkLeakyIntegrator, leakyDefault]
    simp +decide only [buildController, asVec]
    show Ctrl.leaky <$> mkLeakyIntegrator (List.replicate n 1) (List.replicate n 0)
        none none none none = Except.ok (.leaky (leakyDefault n))
    rw [hmk]
    rfl
  · simp [Ctrl.dim, pidZero]
  · simp [Ctrl.dim, leakyDefault]
  · intro e he
    constructor
    · simp only [leakyProcess, leakyDefault, leakyDefaultZ, clipOpt]
      rw [zip_mul_one_left_n n (List.replicate n 0) (by simp),
          zip_mul_zero_left n e he,
          zip_add_zero_right n (List.replicate n (0 : ℚ)) (by simp),
          zip_add_zero_right n (List.replicate n (0 : ℚ)) (by simp)]
    · simp only [leakyProcess, leakyDefault, leakyDefaultZ, clipOpt]
      simp

/-- C10 witness: a rejected type (`"kalman"`) and the two accepted
types at `n = 2`, with the leaky `kp = None` / `kp = 0` equivalence
evaluated on a concrete vector. -/
theorem c10_build_controller_witness :
    buildController "kalman" 2 1 none none none none none none none
      = .error (.userWarning "kalman")
    ∧ buildController "pid" 2 1 none none none none none none none
      = .ok (.pid (pidZero 2))
    ∧ buildController "leaky" 2 1 none none none none none none none
      = .ok (.leaky (leakyDefault 2))
    ∧ Ctrl.dim (.pid (pidZero 2)) = 2
    ∧ Ctrl.dim (.leaky (leakyDefault 2)) = 2
    ∧ ((leakyProcess (leakyDefault 2) [3, 9]).1
        = (leakyProcess (leakyDefaultZ 2) [3, 9]).1
      ∧ (leakyProcess (leakyDefault 2) [3, 9]).2.state
        = (leakyProcess (leakyDefaultZ 2) [3, 9]).2.state) := by
  have h := c10_build_controller "kalman" 2
  exact ⟨h.1 (by decide) (by decide), h.2.1, h.2.2.1, h.2.2.2.1, h.2.2.2.2.1,
    h.2.2.2.2.2 [3, 9] (by simp)⟩

theorem applyCommand_wf (c : Cmd) (g : RuntimeGlobals) (h : wfCmd c = true) :
    applyCommand c g = .ok (applyPure c g) := by
  cases c with
  | setLO v =>
    have hv : v = 0 ∨ v = 1 := by simpa [wfCmd] using h
    rcases hv with rfl | rfl <;> rfl
  | setHO v =>
    have hv : v = 0 ∨ v = 1 := by simpa [wfCmd] using h
    rcases hv with rfl | rfl <;> rfl
  | setLOHO lo ho =>
    have hv : (lo = 0 ∨ lo = 1) ∧ (ho = 0 ∨ ho = 1) := by simpa [wfCmd] using h
    obtain ⟨h1, h2⟩ := hv
    rcases h1 with rfl | rfl <;> rcases h2 with rfl | rfl <;> rfl
  | pause => rfl
  | resume => rfl
  | stop => rfl
  | setTelem b => rfl
  | loadConfig cfg p => cases cfg <;> rfl
  | unknown t => rfl

theorem drainLoop_wf (m : Nat) (g : RuntimeGlobals) (q : List Cmd)
    (h : q.all wfCmd = true) :
    drainLoop m g q
      = ⟨(q.take m).foldl (fun gg c => applyPure c gg) g, q.drop m,
         (q.take m).map .cmdApplied, none⟩ := by
  induction m generalizing g q with
  | zero => simp [drainLoop]
  | succ m ih =>
    cases q with
    | nil => simp [drainLoop]
    | cons c q' =>
      have hc2 : wfCmd c = true ∧ q'.all wfCmd = true := by
        simpa [List.all_cons, Bool.and_eq_true] using h
      simp only [drainLoop]
      rw [applyCommand_wf c g hc2.1]
      simp only [ih _ _ hc2.2]
      simp

/-- C5: one call to `_drain_commands` pops at most 100 commands,
applies them in enqueue (FIFO) order, stops early only when the queue
empties, and leaves the overflow queued — stated for queues of
well-formed commands (the only kind the dispatch handlers enqueue, on
which `_apply_command` cannot raise). -/
theorem c5_drain_bounded_fifo (g : RuntimeGlobals) (q : List Cmd)
    (h : q.all wfCmd = true) :
    drainCommands g q
      = ⟨(q.take 100).foldl (fun gg c => applyPure c gg) g, q.drop 100,
         (q.take 100).map .cmdApplied, none⟩ :=
  drainLoop_wf 100 g q h

/-- C5 witness: a concrete four-command queue. -/
theorem c5_drain_bounded_fifo_witness :
    qSmall.all wfCmd = true
    ∧ drainCommands defaultGlobals qSmall
      = ⟨(qSmall.take 100).foldl (fun gg c => applyPure c gg) defaultGlobals,
         qSmall.drop 100, (qSmall.take 100).map .cmdApplied, none⟩ :=
  ⟨rfl, c5_drain_bounded_fifo defaultGlobals qSmall rfl⟩

theorem exbind_ok {α β : Type} (a : α) (f : α → Except PyErr β) :
    (Except.ok a >>= f) = f a := rfl

theorem exbind_err {α β : Type} (e : PyErr) (f : α → Except PyErr β) :
    ((Except.error e : Except PyErr α) >>= f) = Except.error e := rfl

/-- C1: STOP is terminal.  (i) applying `STOP` sets
`servo_mode = SERVO_STOP`; (ii) no command application ever moves
`servo_mode` away from `SERVO_STOP` (the only write `_apply_command`
performs on it is `SERVO_STOP` itself); (iii) an iteration that starts
with `servo_mode = SERVO_STOP` performs no drain, no frame acquisition
and no telemetry push — it exits at the top; (iv) hence any fuelled run
from such a state terminates immediately with an empty event trace. -/
theorem c1_stop_terminal :
    (∀ g : RuntimeGlobals,
      applyCommand .stop g = .ok { g with servo_mode := .SERVO_STOP })
    ∧ (∀ (c : Cmd) (g g' : RuntimeGlobals), applyCommand c g = .ok g' →
        g.servo_mode = .SERVO_STOP → g'.servo_mode = .SERVO_STOP)
    ∧ (∀ (env : LoopEnv) (st : LoopState), st.g.servo_mode = .SERVO_STOP →
        loopIter env st = ([], .exited))
    ∧ (∀ (env : LoopEnv) (st : LoopState) (fuel : Nat),
        st.g.servo_mode = .SERVO_STOP → 1 ≤ fuel →
        runLoop env fuel st = ([], .stoppedExit)) := by
  have hIter : ∀ (env : LoopEnv) (st : LoopState), st.g.servo_mode = .SERVO_STOP →
      loopIter env st = ([], .exited) := by
    intro env st h
    simp [loopIter, h]
  refine ⟨fun g => rfl, ?_, hIter, ?_⟩
  · intro c g g' hap hstop
    cases c with
    | setLO v =>
      cases hv : servoStateOfInt v with
      | error e => simp [applyCommand, hv, exbind_ok, exbind_err] at hap
      | ok sv =>
        simp [applyCommand, hv, exbind_ok, exbind_err] at hap
        rw [← hap]
        exact hstop
    | setHO v =>
      cases hv : servoStateOfInt v with
      | error e => simp [applyCommand, hv, exbind_ok, exbind_err] at hap
      | ok sv =>
        simp [applyCommand, hv, exbind_ok, exbind_err] at hap
        rw [← hap]
        exact hstop
    | setLOHO lo ho =>
      cases hl : servoStateOfInt lo with
      | error e => simp [applyCommand, hl, exbind_ok, exbind_err] at hap
      | ok sl =>
        cases hh : servoStateOfInt ho with
        | error e => simp [applyCommand, hl, hh, exbind_ok, exbind_err] at hap
        | ok sh =>
          simp [applyCommand, hl, hh, exbind_ok, exbind_err] at hap
          rw [← hap]
          exact hstop
    | pause =>
      simp [applyCommand] at hap
      rw [← hap]
      exact hstop
    | resume =>
      simp [applyCommand] at hap
      rw [← hap]
      exact hstop
    | stop =>
      simp [applyCommand] at hap
      rw [← hap]
    | setTelem b =>
      simp [applyCommand] at hap
      rw [← hap]
      exact hstop
    | loadConfig cfg p =>
      cases cfg with
      | none =>
        simp [applyCommand] at hap
        rw [← hap]
        exact hstop
      | some c0 =>
        simp [applyCommand] at hap
        rw [← hap]
        exact hstop
    | unknown t =>
      simp [applyCommand] at hap
      rw [← hap]
      exact hstop
  · intro env st fuel h hfuel
    cases fuel with
    | zero => omega
    | succ m =>
      show (match loopIter env st with
        | (ev, .exited) => (ev, RunOut.stoppedExit)
        | (ev, .crashed e) => (ev, RunOut.crashed e)
        | (ev, .next st1) =>
          let p := runLoop env m st1
          (ev ++ p.1, p.2)) = ([], .stoppedExit)
      rw [hIter env st h]

/-- C1 witness: a concretely stopped state exits with no events. -/
theorem c1_stop_terminal_witness :
    applyCommand .stop defaultGlobals = .ok gStop
    ∧ ((applyCommand .pause gStop = .ok { gStop with pause_rtc := true }) ∧
        ({ gStop with pause_rtc := true } : RuntimeGlobals).servo_mode = .SERVO_STOP)
    ∧ loopIter env0 stStop = ([], .exited)
    ∧ runLoop env0 1 stStop = ([], .stoppedExit) := by
  have h := c1_stop_terminal
  refine ⟨h.1 defaultGlobals, ⟨rfl, ?_⟩, h.2.2.1 env0 stStop rfl,
    h.2.2.2 env0 stStop 1 rfl (by norm_num)⟩
  exact h.2.1 .pause gStop _ rfl rfl

/-- C2 (code bug): executing `"status"` on the fresh run-state (before
any `LOAD_CONFIG`) does not return the flat status object at all: the
handler reads `globals_.observing_mode`, which is not a field of
`RuntimeGlobals` (the declared field is `mode`), so the handler raises
`AttributeError` and `Module.execute` returns `{"error": ...}`. -/
theorem c2_status_attribute_bug :
    dispatchExecute defaultGlobals fsDot "status" []
      = ⟨defaultGlobals, [],
         errObj (.attributeError "RuntimeGlobals" "observing_mode"),
         some (.attributeError "RuntimeGlobals" "observing_mode")⟩ := rfl

/-- C3 (amended): every dispatch handler except the configuration-load
handler leaves the run-state unchanged (its only effects are enqueueing
commands and producing a reply); the configuration-load handler
`read_bdr` additionally writes `active_config_filename` directly, and
that is the only field it touches. -/
theorem c3_handlers_mutation :
    (∀ p ∈ commanderRegistry, p.1 ≠ "readBDRConfig" →
      ∀ (g : RuntimeGlobals) (fs : FS) (args : List Json), (p.2 g fs args).1 = g)
    ∧ (∀ (g : RuntimeGlobals) (fs : FS) (args : List Json),
        (readBdrH g fs args).1
          = { g with active_config_filename :=
                (readBdrH g fs args).1.active_config_filename }) := by
  constructor
  · intro p hp hne g fs args
    fin_cases hp
    · exact absurd rfl hne
    all_goals rfl
  · intro g fs args
    cases args with
    | nil =>
      cases hr : readBDRConfig fs "" 1 "H1" with
      | error e => simp [readBdrH, hr]
      | ok cfg =>
        cases hc : readBdrConfigured cfg with
        | error e => simp [readBdrH, hr, hc]
        | ok cq => simp [readBdrH, hr, hc]
    | cons a rest =>
      cases hr : readBDRConfig fs (pyStrJ a) 1 "H1" with
      | error e => simp [readBdrH, hr]
      | ok cfg =>
        cases hc : readBdrConfigured cfg with
        | error e => simp [readBdrH, hr, hc]
        | ok cq => simp [readBdrH, hr, hc]

/-- C3 counterexample: on a filesystem holding a parseable config file,
executing `"readBDRConfig"` through dispatch changes
`active_config_filename` on the run-state — the dispatch side mutated
the run-state directly, without going through the control loop. -/
theorem c3_counterexample :
    (dispatchExecute defaultGlobals fsCfg "readBDRConfig"
        [.jStr "cfg.toml"]).g.active_config_filename = some "cfg.toml"
    ∧ defaultGlobals.active_config_filename = none := ⟨rfl, rfl⟩

/-- C4 (amended): a non-positive configured frame rate is not an error
anywhere: `BDRConfig.validate` performs no checks, the `LOAD_CONFIG`
swap installs the configuration unchanged, the loop substitutes the
default 1000 fps at startup, and the loop then runs full control cycles
with the swapped configuration. -/
theorem c4_fps_fallback (cfg : BDRConfig) (g : RuntimeGlobals) (p : String)
    (h : cfg.fps ≤ 0) :
    BDRConfig.validate cfg = .ok ()
    ∧ applyCommand (.loadConfig (some cfg) (some p)) g
        = .ok { g with rtc_config := cfg, active_config_filename := some p }
    ∧ effectiveFps cfg = 1000
    ∧ loopIter env0 ⟨{ defaultGlobals with rtc_config := cfg }, [], 0⟩
        = ([.frameAcq 1,
            .telemPush ⟨1, env0.clock 1, 0, 0, false, frameMean [[0]],
              clip01 (env0.rng 1)⟩],
           .next ⟨{ defaultGlobals with rtc_config := cfg }, [], 1⟩)
    ∧ frameMean [[0]] = 0 ∧ clip01 (env0.rng 1) = 0 :=
  ⟨rfl, rfl, by simp [effectiveFps, not_lt.mpr h], rfl,
   by norm_num [frameMean], by norm_num [clip01, env0]⟩

/-- C4 witness: the default configuration (`fps = 0`, as produced by
both config readers, which never set `fps`). -/
theorem c4_fps_fallback_witness :
    BDRConfig.validate cfgZeroFps = .ok ()
    ∧ applyCommand (.loadConfig (some cfgZeroFps) (some "cfg.toml")) defaultGlobals
        = .ok { defaultGlobals with
                rtc_config := cfgZeroFps, active_config_filename := some "cfg.toml" }
    ∧ effectiveFps cfgZeroFps = 1000
    ∧ loopIter env0 ⟨{ defaultGlobals with rtc_config := cfgZeroFps }, [], 0⟩
        = ([.frameAcq 1,
            .telemPush ⟨1, env0.clock 1, 0, 0, false, frameMean [[0]],
              clip01 (env0.rng 1)⟩],
           .next ⟨{ defaultGlobals with rtc_config := cfgZeroFps }, [], 1⟩)
    ∧ frameMean [[0]] = 0 ∧ clip01 (env0.rng 1) = 0 :=
  c4_fps_fallback cfgZeroFps defaultGlobals "cfg.toml" (by norm_num [cfgZeroFps, defaultBDRConfig])

/-- C4 counterexample: with `fps = 0` no `ConfigurationError` is raised
and the configuration IS swapped (and the loop runs, at the fallback
rate) — refuting the claim that the load is rejected. -/
theorem c4_counterexample :
    cfgZeroFps.fps = 0
    ∧ BDRConfig.validate cfgZeroFps = .ok ()
    ∧ applyCommand (.loadConfig (some cfgZeroFps) (some "cfg.toml")) defaultGlobals
        = .ok { defaultGlobals with
                rtc_config := cfgZeroFps, active_config_filename := some "cfg.toml" }
    ∧ effectiveFps cfgZeroFps = 1000 := by
  refine ⟨rfl, rfl, rfl, ?_⟩
  norm_num [effectiveFps, cfgZeroFps, defaultBDRConfig]

/-- C8 (amended): `"readBDRConfig"` with no path argument never raises
out of the dispatch layer — the handler receives the empty-string path
and the caller gets `{"error": ...}` — but the surfaced error is an
is-a-directory error, not file-not-found: `Path("")` is the current
directory, which exists. -/
theorem c8_read_bdr_no_args (g : RuntimeGlobals) (fs : FS)
    (h : fs "." = FSNode.directory) :
    dispatchExecute g fs "readBDRConfig" []
      = ⟨g, [], errObj (.isADirectory "."), some (.isADirectory ".")⟩ := by
  have hload : loadToml fs "" = .error (.isADirectory ".") := by
    simp [loadToml, pathNorm, h]
  simp +decide [dispatchExecute, commanderRegistry, readBdrH, readBDRConfig, hload,
    exbind_err]

/-- C8 witness: the concrete filesystem where only `"."` exists. -/
theorem c8_read_bdr_no_args_witness :
    fsDot "." = FSNode.directory
    ∧ dispatchExecute defaultGlobals fsDot "readBDRConfig" []
      = ⟨defaultGlobals, [], errObj (.isADirectory "."), some (.isADirectory ".")⟩ :=
  ⟨rfl, c8_read_bdr_no_args defaultGlobals fsDot rfl⟩

/-- C8 counterexample: the caught error is `IsADirectoryError`, not a
`FileNotFoundError` as the claim states. -/
theorem c8_counterexample :
    (dispatchExecute defaultGlobals fsDot "readBDRConfig" []).raised
      = some (.isADirectory ".")
    ∧ PyErr.isFnf (.isADirectory ".") = false := ⟨rfl, rfl⟩

/-- C3 witness: a non-loading handler leaves concrete globals unchanged;
the loading handler on a concrete filesystem changes only
`active_config_filename`. -/
theorem c3_handlers_mutation_witness :
    (pauseRtcH defaultGlobals fsDot []).1 = defaultGlobals
    ∧ (readBdrH defaultGlobals fsCfg [.jStr "cfg.toml"]).1
        = { defaultGlobals with active_config_filename :=
              (readBdrH defaultGlobals fsCfg
                [.jStr "cfg.toml"]).1.active_config_filename } := by
  have h := c3_handlers_mutation
  refine ⟨h.1 ("pauseRTC", pauseRtcH) ?_ (by decide) defaultGlobals fsDot [],
    h.2 defaultGlobals fsCfg [.jStr "cfg.toml"]⟩
  simp [commanderRegistry]
